import Mathlib

/-!
Verification development for the VMware vCenter MCP server
(files: app/main.py and server.py).

The Python code is shallowly embedded: remote inventory objects become
plain Lean structures, remote property reads that can raise become
Except values, and the busy-wait task polling loop becomes a
fuel-indexed recursion (fuel counts poll iterations; a result of none
means the loop has not yet reached a terminal observation within the
given number of polls).
-/

namespace VMwareSpec

/-- Helper string holding a single quote character (code point 39),
used to reproduce the quoted VM names in the Python message strings. -/
def sq : String := String.singleton (Char.ofNat 39)

/-! ### Inventory graph and ancestor walk (app/main.py, VMwareManager._get_parent_info)

Inventory nodes are identified by natural numbers; parent pointers,
type tests and names are functions of the node id, mirroring the
pyVmomi object graph where each managed object carries a parent
reference, a dynamic type, and a name. -/

structure Inventory where
  parent : Nat → Option Nat
  isDatacenter : Nat → Bool
  isCluster : Nat → Bool
  name : Nat → String

/-- Embedding of the datacenter while-loop of _get_parent_info
(main.py lines 78-83):

  curr = vm.parent
  while curr:
      if isinstance(curr, vim.Datacenter):
          info["datacenter"] = curr.name
          break
      curr = curr.parent

fuel bounds the number of loop iterations inspected; none means the
loop has not terminated within fuel iterations.  The Python loop
itself has no such bound. -/
def dcWalkFuel (inv : Inventory) (fuel : Nat) (curr : Option Nat) : Option String :=
  match curr with
  | none => some "Unknown"
  | some c =>
    match fuel with
    | 0 => none
    | fuel' + 1 =>
      if inv.isDatacenter c then some (inv.name c)
      else dcWalkFuel inv fuel' (inv.parent c)

/-- The datacenter walk halts on the parent chain starting at node c:
some number of loop iterations suffices to produce a result. -/
def dcWalkHalts (inv : Inventory) (c : Nat) : Prop :=
  ∃ fuel, (dcWalkFuel inv fuel (some c)).isSome = true

/-- Embedding of the cluster/host part of _get_parent_info
(main.py lines 65-74): if the VM has a host assignment, report the
parent cluster name when the host parent is a ClusterComputeResource,
else the host name; with no host assignment the cluster entry keeps
its initial "Unknown" value. -/
def clusterName (inv : Inventory) (host : Option Nat) : String :=
  match host with
  | none => "Unknown"
  | some h =>
    match inv.parent h with
    | some p => if inv.isCluster p then inv.name p else inv.name h
    | none => inv.name h

/-- Location-relevant fields of a virtual machine object:
vm.runtime.host and vm.parent. -/
structure VMloc where
  host : Option Nat
  parent : Option Nat

/-- Embedding of _get_parent_info (main.py lines 59-85), fuel-indexed
through the datacenter walk.  Returns none when the datacenter walk
does not terminate within fuel iterations. -/
def get_parent_info (inv : Inventory) (vm : VMloc) (fuel : Nat) :
    Option (String × String) :=
  (dcWalkFuel inv fuel vm.parent).map (fun dc => (dc, clusterName inv vm.host))

/-- Concrete malformed inventory: node 0 is its own parent and is not
a datacenter, so the parent chain starting at node 0 is cyclic. -/
def cycInv : Inventory :=
  { parent := fun _ => some 0
    isDatacenter := fun _ => false
    isCluster := fun _ => false
    name := fun _ => "node" }

/-- Iterate the parent pointer k times from a starting reference,
describing the shape of a parent chain independently of the walk. -/
def chainIter (inv : Inventory) : Option Nat → Nat → Option Nat
  | c, 0 => c
  | none, _ + 1 => none
  | some c, k + 1 => chainIter inv (inv.parent c) k

/-! ### MAC normalization and fingerprint matching (app/main.py, find_vm_by_mac) -/

/-- Character class of the Python regex [^a-fA-F0-9] complement:
true exactly on ASCII hexadecimal digit characters. -/
def isHexChar (c : Char) : Bool :=
  (('0' ≤ c && c ≤ '9') || ('a' ≤ c && c ≤ 'f') || ('A' ≤ c && c ≤ 'F'))

/-- Embedding of re.sub applied to a hardware address followed by
str.lower (main.py lines 89 and 104): drop every character outside
[0-9a-fA-F], then lowercase.  Lowercasing per character agrees with
Python str.lower here because only ASCII hex digits survive the
filter. -/
def normalizeMac (s : String) : String :=
  String.mk (((s.data).filter isHexChar).map Char.toLower)

/-- Virtual network device record: the isinstance VirtualEthernetCard
test and the macAddress property. -/
structure NetDevice where
  isEthernet : Bool
  macAddress : String
deriving DecidableEq

/-- Fields of a VM consulted by find_vm_by_mac: the guard
vm.config and vm.config.hardware (collapsed into hasConfig), the
device list, the display name, and the location fields used by
_get_parent_info. -/
structure VMmac where
  vmName : String
  hasConfig : Bool
  devices : List NetDevice
  host : Option Nat
  parentRef : Option Nat
deriving DecidableEq

/-- Candidate test of the inner device loop (main.py lines 102-106):
an ethernet card whose normalized macAddress equals the normalized
target. -/
def deviceMatches (clean : String) (d : NetDevice) : Bool :=
  d.isEthernet && (normalizeMac d.macAddress == clean)

/-- The nested for-loops of find_vm_by_mac (main.py lines 98-117):
skip VMs without config/hardware, return the first VM (with its first
matching device) whose device list contains a match, in view order. -/
def findMatch (vms : List VMmac) (clean : String) : Option (VMmac × NetDevice) :=
  match vms with
  | [] => none
  | vm :: rest =>
    if vm.hasConfig then
      match vm.devices.find? (deviceMatches clean) with
      | some d => some (vm, d)
      | none => findMatch rest clean
    else findMatch rest clean

/-- Embedding of find_vm_by_mac (main.py lines 87-124): normalize the
target, search the container view, and format the result.  The
ancestor resolution goes through get_parent_info, hence the fuel
index; none means the datacenter walk of the matched VM did not
terminate within fuel iterations. -/
def find_vm_by_mac (inv : Inventory) (vms : List VMmac) (target : String)
    (fuel : Nat) : Option String :=
  match findMatch vms (normalizeMac target) with
  | some (vm, d) =>
    (get_parent_info inv ⟨vm.host, vm.parentRef⟩ fuel).map (fun info =>
      "Found VM: " ++ vm.vmName ++ "\nDatacenter: " ++ info.1 ++
      "\nCluster/Host: " ++ info.2 ++ "\nMAC Address: " ++ d.macAddress)
  | none => some ("No VM found with MAC address " ++ target)

/-! ### Task driver (server.py, the polling loops of create_vm, clone_vm,
delete_vm, power_on_vm, power_off_vm)

A remote task is modelled by the sequence of states the poll loop
observes: some number of running observations followed by a fixed
terminal state, plus the remote error detail carried by
task.info.error. -/

inductive TaskState where
  | running
  | success
  | error
deriving DecidableEq

inductive Terminal where
  | success
  | error
deriving DecidableEq

structure RemoteTask where
  runningPolls : Nat
  terminal : Terminal
  errorDetail : String

/-- State returned by reading task.info.state on the i-th poll. -/
def pollObs (t : RemoteTask) (i : Nat) : TaskState :=
  if i < t.runningPolls then TaskState.running
  else
    match t.terminal with
    | Terminal.success => TaskState.success
    | Terminal.error => TaskState.error

/-- Embedding of the polling loop shared by the mutating operations
(server.py lines 241-244, 264-267, 281-284, 299-302, 314-317):

  while task.info.state not in [success, error]: continue
  if task.info.state == error: raise task.info.error

i is the index of the next poll, fuel bounds the number of polls;
none means no terminal state was observed within fuel polls.  On a
terminal error the loop raises exactly task.info.error. -/
def driveLoop (t : RemoteTask) (i : Nat) : Nat → Option (Except String Unit)
  | 0 => none
  | fuel + 1 =>
    match pollObs t i with
    | TaskState.running => driveLoop t (i + 1) fuel
    | TaskState.success => some (Except.ok ())
    | TaskState.error => some (Except.error t.errorDetail)

/-! ### Power and delete operations (server.py, VMwareManager) -/

inductive PowerState where
  | poweredOn
  | poweredOff
  | suspended
deriving DecidableEq

/-- Fields of a VM consulted by the power and delete operations. -/
structure VMpow where
  vmName : String
  powerState : PowerState
deriving DecidableEq

/-- Outcome of one facade operation: the raised-or-returned value and
whether a remote task was submitted along the way. -/
structure OpResult where
  outcome : Except String String
  taskSubmitted : Bool

/-- Name lookup of find_vm (server.py lines 125-134): first VM of the
container view with the requested name. -/
def find_vm_pow (vms : List VMpow) (name : String) : Option VMpow :=
  vms.find? (fun vm => vm.vmName == name)

/-- Embedding of power_on_vm (server.py lines 291-304).  task is the
remote task PowerOnVM_Task would return; fuel bounds the polling
loop; none means the polling loop did not yet observe a terminal
state. -/
def power_on_vm (vms : List VMpow) (name : String) (task : RemoteTask)
    (fuel : Nat) : Option OpResult :=
  match find_vm_pow vms name with
  | none => some ⟨Except.error ("Virtual machine " ++ name ++ " not found"), false⟩
  | some vm =>
    if vm.powerState == PowerState.poweredOn then
      some ⟨Except.ok ("VM " ++ sq ++ name ++ sq ++ " is already powered on."), false⟩
    else
      match driveLoop task 0 fuel with
      | none => none
      | some (Except.ok ()) =>
        some ⟨Except.ok ("VM " ++ sq ++ name ++ sq ++ " powered on."), true⟩
      | some (Except.error e) => some ⟨Except.error e, true⟩

/-- Embedding of power_off_vm (server.py lines 306-319). -/
def power_off_vm (vms : List VMpow) (name : String) (task : RemoteTask)
    (fuel : Nat) : Option OpResult :=
  match find_vm_pow vms name with
  | none => some ⟨Except.error ("Virtual machine " ++ name ++ " not found"), false⟩
  | some vm =>
    if vm.powerState == PowerState.poweredOff then
      some ⟨Except.ok ("VM " ++ sq ++ name ++ sq ++ " is already powered off."), false⟩
    else
      match driveLoop task 0 fuel with
      | none => none
      | some (Except.ok ()) =>
        some ⟨Except.ok ("VM " ++ sq ++ name ++ sq ++ " powered off."), true⟩
      | some (Except.error e) => some ⟨Except.error e, true⟩

/-- Embedding of delete_vm (server.py lines 274-289): the except
clause logs and re-raises, so a terminal task error propagates
unchanged. -/
def delete_vm (vms : List VMpow) (name : String) (task : RemoteTask)
    (fuel : Nat) : Option OpResult :=
  match find_vm_pow vms name with
  | none => some ⟨Except.error ("Virtual machine " ++ name ++ " not found"), false⟩
  | some _ =>
    match driveLoop task 0 fuel with
    | none => none
    | some (Except.ok ()) =>
      some ⟨Except.ok ("VM " ++ sq ++ name ++ sq ++ " deleted."), true⟩
    | some (Except.error e) => some ⟨Except.error e, true⟩

/-! ### create_vm name resolution (server.py lines 176-249)

The device-spec construction between the name resolution and the task
submission is pure local data assembly and is elided; what matters for
the claims is the order of the resolution checks before
CreateVM_Task. -/

/-- Entry of datacenter.datastoreFolder.childEntity: the isinstance
vim.Datastore test, the name, and summary.freeSpace. -/
structure DsEntity where
  isDatastoreType : Bool
  dsName : String
  freeSpace : Int
deriving DecidableEq

/-- Entry of datacenter.networkFolder.childEntity. -/
structure NetEntity where
  netName : String
deriving DecidableEq

/-- Connection-time state of the manager used by create_vm, together
with the folder listings re-read for the per-call overrides. -/
structure CreateCtx where
  defaultDatastore : DsEntity
  defaultNetwork : Option NetEntity
  dsChildren : List DsEntity
  netChildren : List NetEntity

/-- Datastore override resolution of create_vm (server.py lines
178-184). -/
def resolveDsOverride (ctx : CreateCtx) (datastore : Option String) :
    Except String DsEntity :=
  match datastore with
  | none => Except.ok ctx.defaultDatastore
  | some d =>
    match ctx.dsChildren.find? (fun e => e.isDatastoreType && e.dsName == d) with
    | some e => Except.ok e
    | none => Except.error ("Specified datastore " ++ d ++ " not found")

/-- Network override resolution of create_vm (server.py lines
185-189). -/
def resolveNetOverride (ctx : CreateCtx) (network : Option String) :
    Except String (Option NetEntity) :=
  match network with
  | none => Except.ok ctx.defaultNetwork
  | some n =>
    match ctx.netChildren.find? (fun e => e.netName == n) with
    | some e => Except.ok (some e)
    | none => Except.error ("Specified network " ++ n ++ " not found")

/-- Embedding of create_vm (server.py lines 176-249): resolve the
datastore override, then the network override, then submit
CreateVM_Task and drive it; the except clause re-raises, so a
terminal task error propagates unchanged.  taskSubmitted records
whether CreateVM_Task was invoked. -/
def create_vm_res (ctx : CreateCtx) (name : String)
    (datastore network : Option String) (task : RemoteTask) (fuel : Nat) :
    Option OpResult :=
  match resolveDsOverride ctx datastore with
  | Except.error e => some ⟨Except.error e, false⟩
  | Except.ok _ =>
    match resolveNetOverride ctx network with
    | Except.error e => some ⟨Except.error e, false⟩
    | Except.ok _ =>
      match driveLoop task 0 fuel with
      | none => none
      | some (Except.ok ()) =>
        some ⟨Except.ok ("VM " ++ sq ++ name ++ sq ++ " created."), true⟩
      | some (Except.error e) => some ⟨Except.error e, true⟩

/-! ### Performance query (server.py, VMwareManager.get_vm_performance) -/

/-- Round-half-to-even on rationals, the semantics of the Python
built-in round on an exactly representable value. -/
def roundHalfEven (q : ℚ) : ℤ :=
  let f := Int.floor q
  let frac := q - (f : ℚ)
  if frac < 1 / 2 then f
  else if 1 / 2 < frac then f + 1
  else if f % 2 = 0 then f else f + 1

/-- Embedding of round(x, 2): round-half-to-even at two decimal
places. -/
def round2 (q : ℚ) : ℚ := (roundHalfEven (q * 100) : ℚ) / 100

/-- Performance counter record of pm.perfCounter: groupInfo.key,
nameInfo.key, rollupType and the numeric key. -/
structure PerfCounter where
  groupKey : String
  nameKey : String
  rollupType : String
  key : Nat
deriving DecidableEq

/-- Full counter name as assembled at server.py line 155. -/
def counterFullName (c : PerfCounter) : String :=
  c.groupKey ++ "." ++ c.nameKey ++ "." ++ c.rollupType

/-- Counter filter of server.py lines 153-157, preserving
pm.perfCounter order. -/
def netCounterIds (cs : List PerfCounter) : List Nat :=
  (cs.filter (fun c =>
    counterFullName c == "net.transmitted.average" ||
    counterFullName c == "net.received.average")).map (fun c => c.key)

/-- One data series of the QueryStats result: series.id.counterId and
series.value. -/
structure MetricSeries where
  counterId : Nat
  values : List Int
deriving DecidableEq

/-- One entity entry of the QueryStats result (stats_res[i].value). -/
structure EntityMetric where
  value : List MetricSeries
deriving DecidableEq

/-- The series loop of server.py lines 163-167.  Accessing
counter_ids[1] when only one counter id was collected raises an
IndexError, reproduced here as an error result. -/
def seriesLoop (ids : List Nat) (tx rx : Int) :
    List MetricSeries → Except String (Int × Int)
  | [] => Except.ok (tx, rx)
  | s :: rest =>
    match ids with
    | [] => Except.error "IndexError: counter_ids[0]"
    | id0 :: restIds =>
      if s.counterId == id0 then seriesLoop ids (s.values.sum) rx rest
      else
        match restIds with
        | [] => Except.error "IndexError: counter_ids[1]"
        | id1 :: _ =>
          if s.counterId == id1 then seriesLoop ids tx (s.values.sum) rest
          else seriesLoop ids tx rx rest

/-- Embedding of the try-block body of server.py lines 151-167.
countersRes models reading pm.perfCounter (which can raise), queryRes
models pm.QueryStats (which can raise).  When no counter id matched,
QueryStats is never called, so queryRes is not consulted.  Accessing
stats_res[0] on an empty result raises an IndexError. -/
def metricsBlock (countersRes : Except String (List PerfCounter))
    (queryRes : Except String (List EntityMetric)) : Except String (Int × Int) :=
  match countersRes with
  | Except.error e => Except.error e
  | Except.ok cs =>
    let ids := netCounterIds cs
    if ids.isEmpty then Except.ok (0, 0)
    else
      match queryRes with
      | Except.error e => Except.error e
      | Except.ok [] => Except.error "IndexError: stats_res[0]"
      | Except.ok (em :: _) => seriesLoop ids 0 0 em.value

/-- The two network fields as stored into the stats dict (server.py
lines 168-173): the computed sums on success, None for both on any
exception inside the try-block. -/
def netFields (countersRes : Except String (List PerfCounter))
    (queryRes : Except String (List EntityMetric)) : Option Int × Option Int :=
  match metricsBlock countersRes queryRes with
  | Except.ok (tx, rx) => (some tx, some rx)
  | Except.error _ => (none, none)

/-- Fields of a VM consulted by get_vm_performance:
summary.quickStats.overallCpuUsage, summary.quickStats.guestMemoryUsage,
and summary.storage (None when absent) with its committed byte
count. -/
structure VMperf where
  vmName : String
  cpuUsage : Int
  memUsage : Int
  storage : Option Nat
deriving DecidableEq

/-- The stats dict returned by get_vm_performance; none models the
Python None in the two network fields. -/
structure VMStats where
  cpu_usage : Int
  memory_usage : Int
  storage_usage : ℚ
  network_transmit_KBps : Option Int
  network_receive_KBps : Option Int
deriving DecidableEq

/-- Embedding of get_vm_performance (server.py lines 136-174). -/
def get_vm_performance (vms : List VMperf) (name : String)
    (countersRes : Except String (List PerfCounter))
    (queryRes : Except String (List EntityMetric)) : Except String VMStats :=
  match vms.find? (fun v => v.vmName == name) with
  | none => Except.error ("VM " ++ name ++ " not found")
  | some vm =>
    let committed : Nat := vm.storage.getD 0
    let net := netFields countersRes queryRes
    Except.ok
      { cpu_usage := vm.cpuUsage
        memory_usage := vm.memUsage
        storage_usage := round2 ((committed : ℚ) / 2 ^ 30)
        network_transmit_KBps := net.1
        network_receive_KBps := net.2 }

/-! ### Connection-time object resolution (server.py, _connect_vcenter,
lines 64-114) -/

/-- Datacenter entry of content.rootFolder.childEntity: either a
vim.Datacenter with its name, or some other entity type. -/
inductive RootChild where
  | dc (name : String)
  | other
deriving DecidableEq

/-- Entry of datacenter.hostFolder.childEntity: the isinstance tests
for ComputeResource and its subclass ClusterComputeResource, plus the
name. -/
structure HostEntity where
  isCompute : Bool
  isClusterType : Bool
  hName : String
deriving DecidableEq

/-- Datacenter resolution (server.py lines 64-74): by name when
configured, else the first vim.Datacenter of the listing. -/
def resolve_datacenter (children : List RootChild) (cfg : Option String) :
    Except String String :=
  match cfg with
  | some n =>
    match children.findSome? (fun c =>
        match c with
        | RootChild.dc d => if d == n then some d else none
        | RootChild.other => none) with
    | some d => Except.ok d
    | none => Except.error ("Datacenter " ++ n ++ " not found")
  | none =>
    match children.findSome? (fun c =>
        match c with
        | RootChild.dc d => some d
        | RootChild.other => none) with
    | some d => Except.ok d
    | none => Except.error "No datacenter object found"

/-- Compute-resource resolution (server.py lines 76-89): by name over
ClusterComputeResource entries when configured, else the first
ComputeResource of the listing. -/
def resolve_compute (children : List HostEntity) (cfg : Option String) :
    Except String HostEntity :=
  match cfg with
  | some n =>
    match children.find? (fun e => e.isClusterType && e.hName == n) with
    | some e => Except.ok e
    | none => Except.error ("Cluster " ++ n ++ " not found")
  | none =>
    match children.find? (fun e => e.isCompute) with
    | some e => Except.ok e
    | none => Except.error "No compute resource (cluster or host) found"

/-- Python max(iterable, key=...) over a nonempty list: keeps the
current best and replaces it only on a strictly greater key, so the
first element among ties wins. -/
def pyMaxBy (key : DsEntity → Int) (best : DsEntity) :
    List DsEntity → DsEntity
  | [] => best
  | x :: xs => pyMaxBy key (if key best < key x then x else best) xs

/-- Datastore resolution (server.py lines 93-104): by name when
configured, else the datastore with the highest summary.freeSpace. -/
def resolve_datastore (children : List DsEntity) (cfg : Option String) :
    Except String DsEntity :=
  match cfg with
  | some n =>
    match children.find? (fun e => e.isDatastoreType && e.dsName == n) with
    | some e => Except.ok e
    | none => Except.error ("Datastore " ++ n ++ " not found")
  | none =>
    match children.filter (fun e => e.isDatastoreType) with
    | [] => Except.error "No available datastore found in the datacenter"
    | d :: ds => Except.ok (pyMaxBy (fun e => e.freeSpace) d ds)

/-- Network resolution (server.py lines 106-114): by name when
configured; when no network name is configured, network_obj is set to
None. -/
def resolve_network (children : List NetEntity) (cfg : Option String) :
    Except String (Option NetEntity) :=
  match cfg with
  | some n =>
    match children.find? (fun e => e.netName == n) with
    | some e => Except.ok (some e)
    | none => Except.error ("Network " ++ n ++ " not found")
  | none => Except.ok none

/-- Modelled from the spec wording of section 6 (the network name
"defaults to first found"), for comparison with resolve_network: with
no configured name it would pick the first entry of the network
folder listing. -/
def resolve_network_specFirstFound (children : List NetEntity) :
    Except String (Option NetEntity) :=
  Except.ok children.head?

/-! ### Container-view release discipline (server.py list_vms lines
116-123, find_vm lines 125-134; app/main.py find_vm_by_mac lines
91-119)

Each traversal creates a container view, iterates it, and destroys
it.  The iteration body can raise (remote property reads).  The
second component of the result records whether container.Destroy()
ran. -/

/-- Code shape of list_vms and find_vm: the loop runs, then
container.Destroy() is called on the next line with no try/finally,
so an exception escaping the loop skips the Destroy call. -/
def destroyAfter {α : Type} (body : Except String α) : Except String α × Bool :=
  match body with
  | Except.ok a => (Except.ok a, true)
  | Except.error e => (Except.error e, false)

/-- Code shape of find_vm_by_mac: the loop runs inside try with
container.Destroy() in the finally clause, so Destroy runs whether or
not the loop raises. -/
def destroyFinally {α : Type} (body : Except String α) : Except String α × Bool :=
  (body, true)

/-- View entry whose name property read may raise. -/
structure VMview where
  nameRes : Except String String

/-- The loop of list_vms (server.py lines 120-121): append each
vm.name in view order, propagating a raise. -/
def list_vms_loop : List VMview → Except String (List String)
  | [] => Except.ok []
  | v :: rest =>
    match v.nameRes with
    | Except.error e => Except.error e
    | Except.ok n =>
      match list_vms_loop rest with
      | Except.error e => Except.error e
      | Except.ok ns => Except.ok (n :: ns)

/-- Embedding of list_vms (server.py lines 116-123). -/
def list_vms_view (view : List VMview) : Except String (List String) × Bool :=
  destroyAfter (list_vms_loop view)

/-- The loop of find_vm (server.py lines 129-132). -/
def find_vm_loop (name : String) : List VMview → Except String (Option VMview)
  | [] => Except.ok none
  | v :: rest =>
    match v.nameRes with
    | Except.error e => Except.error e
    | Except.ok n =>
      if n == name then Except.ok (some v) else find_vm_loop name rest

/-- Embedding of find_vm (server.py lines 125-134). -/
def find_vm_view (name : String) (view : List VMview) :
    Except String (Option VMview) × Bool :=
  destroyAfter (find_vm_loop name view)

/-- The outer loop of find_vm_by_mac (main.py lines 98-117), with the
per-VM processing abstracted to its outcome: a raise, a formatted
match, or no match. -/
def fvbm_loop : List (Except String (Option String)) → Except String (Option String)
  | [] => Except.ok none
  | i :: rest =>
    match i with
    | Except.error e => Except.error e
    | Except.ok (some r) => Except.ok (some r)
    | Except.ok none => fvbm_loop rest

/-- Embedding of the resource handling of find_vm_by_mac (main.py
lines 91-119): the loop body runs under try/finally. -/
def find_vm_by_mac_view (items : List (Except String (Option String))) :
    Except String (Option String) × Bool :=
  destroyFinally (fvbm_loop items)

/-! ### Helper lemmas -/

/-- On the cyclic inventory the datacenter walk makes no progress:
no amount of fuel yields a result. -/
theorem dcWalkFuel_cycInv_eq_none :
    ∀ fuel : Nat, dcWalkFuel cycInv fuel (some 0) = none := by
  intro fuel
  induction fuel with
  | zero => rfl
  | succ n ih => simpa [dcWalkFuel, cycInv] using ih

/-- While observations are running, the loop advances to the poll at
the terminal index. -/
theorem driveLoop_run (t : RemoteTask) :
    ∀ (k i : Nat), i + k = t.runningPolls →
      driveLoop t i (k + 1) = driveLoop t t.runningPolls 1 := by
  intro k
  induction k with
  | zero =>
    intro i h
    have hi : i = t.runningPolls := by omega
    subst hi
    rfl
  | succ n ih =>
    intro i h
    have hi : i < t.runningPolls := by omega
    have hobs : pollObs t i = TaskState.running := by simp [pollObs, hi]
    simp only [driveLoop, hobs]
    exact ih (i + 1) (by omega)

/-- At the terminal poll index the loop returns the terminal
outcome. -/
theorem driveLoop_at_terminal (t : RemoteTask) :
    driveLoop t t.runningPolls 1 =
      match t.terminal with
      | Terminal.success => some (Except.ok ())
      | Terminal.error => some (Except.error t.errorDetail) := by
  cases ht : t.terminal <;> simp [driveLoop, pollObs, ht]

/-! ### Claim C1 -/

/-- C1: the claim states that the datacenter-ancestor walk of
_get_parent_info is capped at a bounded number of hops and reports
"Unknown" when the cap is exceeded.  The code has no such cap: on the
cyclic inventory cycInv (node 0 is its own parent and is not a
datacenter), the walk never reaches a result however many loop
iterations are allowed, i.e. the Python while-loop runs forever. -/
theorem ancestor_walk_unbounded_on_cycle :
    ∀ fuel : Nat,
      dcWalkFuel cycInv fuel (some 0) = none ∧
      get_parent_info cycInv ⟨none, some 0⟩ fuel = none := by
  intro fuel
  refine ⟨dcWalkFuel_cycInv_eq_none fuel, ?_⟩
  simp [get_parent_info, dcWalkFuel_cycInv_eq_none fuel]

/-! ### Claim C2 -/

/-- C2: power_on_vm on a VM already poweredOn returns the idempotent
message without submitting a power task (taskSubmitted = false, and
the result is independent of the task and of how long its polling
would take); symmetrically for power_off_vm on a VM already
poweredOff. -/
theorem power_idempotent_no_task (vms : List VMpow) (name : String)
    (vm : VMpow) (task : RemoteTask) (fuel : Nat)
    (h : find_vm_pow vms name = some vm) :
    (vm.powerState = PowerState.poweredOn →
      power_on_vm vms name task fuel =
        some ⟨Except.ok ("VM " ++ sq ++ name ++ sq ++ " is already powered on."), false⟩) ∧
    (vm.powerState = PowerState.poweredOff →
      power_off_vm vms name task fuel =
        some ⟨Except.ok ("VM " ++ sq ++ name ++ sq ++ " is already powered off."), false⟩) := by
  constructor
  · intro hs
    simp [power_on_vm, h, hs]
  · intro hs
    simp [power_off_vm, h, hs]

/-- Witness for C2 at concrete inputs: fuel 0 (no poll ever happens)
and a task that would terminate in error, showing no task outcome is
consulted. -/
theorem power_idempotent_no_task_witness :
    power_on_vm [⟨"web", PowerState.poweredOn⟩] "web" ⟨0, Terminal.error, "boom"⟩ 0 =
      some ⟨Except.ok ("VM " ++ sq ++ "web" ++ sq ++ " is already powered on."), false⟩ ∧
    power_off_vm [⟨"db", PowerState.poweredOff⟩] "db" ⟨0, Terminal.error, "boom"⟩ 0 =
      some ⟨Except.ok ("VM " ++ sq ++ "db" ++ sq ++ " is already powered off."), false⟩ := by
  exact ⟨(power_idempotent_no_task _ "web" ⟨"web", PowerState.poweredOn⟩ _ 0 (by decide)).1 rfl,
         (power_idempotent_no_task _ "db" ⟨"db", PowerState.poweredOff⟩ _ 0 (by decide)).2 rfl⟩

/-! ### Claim C3 -/

/-- C3: when the polling loop observes the terminal error state it
raises exactly the remote-supplied error detail unmodified, and on
terminal success the operation returns without error, regardless of
the number of intermediate running observations (runningPolls is
universally quantified).  The third conjunct shows the propagation
through delete_vm, whose except clause re-raises the same error. -/
theorem task_driver_terminal (t : RemoteTask) :
    (t.terminal = Terminal.error →
      driveLoop t 0 (t.runningPolls + 1) = some (Except.error t.errorDetail)) ∧
    (t.terminal = Terminal.success →
      driveLoop t 0 (t.runningPolls + 1) = some (Except.ok ())) ∧
    (∀ (vms : List VMpow) (name : String) (vm : VMpow),
      find_vm_pow vms name = some vm → t.terminal = Terminal.error →
      delete_vm vms name t (t.runningPolls + 1) =
        some ⟨Except.error t.errorDetail, true⟩) := by
  have hrun := driveLoop_run t t.runningPolls 0 (by omega)
  refine ⟨fun ht => ?_, fun ht => ?_, fun vms name vm hf ht => ?_⟩
  · rw [hrun, driveLoop_at_terminal, ht]
  · rw [hrun, driveLoop_at_terminal, ht]
  · have hdl : driveLoop t 0 (t.runningPolls + 1) = some (Except.error t.errorDetail) := by
      rw [hrun, driveLoop_at_terminal, ht]
    simp [delete_vm, hf, hdl]

/-- Witness for C3: a task erroring after 3 running observations
propagates the exact remote detail; a task succeeding after 2 running
observations returns ok; delete_vm surfaces the remote fault text
unchanged. -/
theorem task_driver_terminal_witness :
    driveLoop ⟨3, Terminal.error, "remote fault detail"⟩ 0 4 =
      some (Except.error "remote fault detail") ∧
    driveLoop ⟨2, Terminal.success, ""⟩ 0 3 = some (Except.ok ()) ∧
    delete_vm [⟨"gone", PowerState.poweredOn⟩] "gone"
        ⟨1, Terminal.error, "vim.fault.TaskInProgress"⟩ 2 =
      some ⟨Except.error "vim.fault.TaskInProgress", true⟩ := by
  refine ⟨(task_driver_terminal _).1 rfl, (task_driver_terminal _).2.1 rfl, ?_⟩
  exact (task_driver_terminal _).2.2 _ "gone" ⟨"gone", PowerState.poweredOn⟩ (by decide) rfl

/-! ### Claim C4 -/

/-- C4: two hardware-address strings with the same normalization
(strip non-hex characters, lowercase) are treated as the same target
by the fingerprint matching of find_vm_by_mac: every VM has the same
matched device set for both, the first match is the same, and when a
match exists the returned result is identical. -/
theorem mac_normalization_equiv (t1 t2 : String)
    (h : normalizeMac t1 = normalizeMac t2)
    (inv : Inventory) (vms : List VMmac) (fuel : Nat) :
    (∀ vm ∈ vms, vm.devices.filter (deviceMatches (normalizeMac t1)) =
       vm.devices.filter (deviceMatches (normalizeMac t2))) ∧
    findMatch vms (normalizeMac t1) = findMatch vms (normalizeMac t2) ∧
    ((findMatch vms (normalizeMac t1)).isSome = true →
      find_vm_by_mac inv vms t1 fuel = find_vm_by_mac inv vms t2 fuel) := by
  refine ⟨fun vm _ => by rw [h], by rw [h], fun hm => ?_⟩
  rw [h] at hm
  unfold find_vm_by_mac
  rw [h]
  rcases hfm : findMatch vms (normalizeMac t2) with _ | ⟨vm, d⟩
  · rw [hfm] at hm
    simp at hm
  · rfl

/-- Structurally trivial inventory used by the C4 witness: no node
has a parent, so the matched VM resolves to Unknown/Unknown even with
zero walk fuel. -/
def macInvW : Inventory :=
  { parent := fun _ => none
    isDatacenter := fun _ => false
    isCluster := fun _ => false
    name := fun _ => "" }

/-- Concrete VM carrying one ethernet card for the C4 witness. -/
def macVmW : VMmac :=
  { vmName := "app01"
    hasConfig := true
    devices := [⟨true, "00:50:56:0a:0b:0c"⟩]
    host := none
    parentRef := none }

/-- Witness for C4: the three spellings from the spec all produce the
same (successful) result on a concrete inventory. -/
theorem mac_normalization_equiv_witness :
    find_vm_by_mac macInvW [macVmW] "00:50:56:0A:0B:0C" 0 =
      find_vm_by_mac macInvW [macVmW] "0050560A0B0C" 0 ∧
    find_vm_by_mac macInvW [macVmW] "00-50-56-0a-0b-0c" 0 =
      find_vm_by_mac macInvW [macVmW] "0050560A0B0C" 0 := by
  exact ⟨(mac_normalization_equiv _ _ (by decide) macInvW [macVmW] 0).2.2 (by decide),
         (mac_normalization_equiv _ _ (by decide) macInvW [macVmW] 0).2.2 (by decide)⟩

/-! ### Claims C5, C9, C10 -/

/-- Concrete evaluation of the storage rounding at the byte count
named by the spec. -/
theorem round2_concrete : round2 ((11274289152 : ℚ) / 2 ^ 30) = 21 / 2 := by
  have h : (11274289152 : ℚ) / 2 ^ 30 * 100 = 1050 := by norm_num
  simp only [round2, h]
  norm_num [roundHalfEven]

/-- When the two collected counter ids match no series, the series
loop leaves both accumulators unchanged. -/
theorem seriesLoop_no_match (k1 k2 : Nat) :
    ∀ (l : List MetricSeries) (tx rx : Int),
      (∀ s ∈ l, (s.counterId == k1) = false ∧ (s.counterId == k2) = false) →
      seriesLoop [k1, k2] tx rx l = Except.ok (tx, rx) := by
  intro l
  induction l with
  | nil => intro tx rx _; rfl
  | cons s ss ih =>
    intro tx rx h
    obtain ⟨h1, h2⟩ := h s (List.mem_cons_self s ss)
    simp only [seriesLoop, h1, h2, Bool.false_eq_true, if_false]
    exact ih tx rx (fun x hx => h x (List.mem_cons_of_mem _ hx))

/-- C5: if the metrics block raises any exception, the two network
fields of the stats dict are None (not 0), the exception is not
propagated, and the overall call succeeds with the core CPU, memory
and storage fields intact. -/
theorem stats_network_null_on_metrics_failure
    (vms : List VMperf) (name : String) (vm : VMperf) (e : String)
    (countersRes : Except String (List PerfCounter))
    (queryRes : Except String (List EntityMetric))
    (hfind : vms.find? (fun v => v.vmName == name) = some vm)
    (herr : metricsBlock countersRes queryRes = Except.error e) :
    get_vm_performance vms name countersRes queryRes =
      Except.ok
        { cpu_usage := vm.cpuUsage
          memory_usage := vm.memUsage
          storage_usage := round2 ((vm.storage.getD 0 : ℚ) / 2 ^ 30)
          network_transmit_KBps := none
          network_receive_KBps := none } := by
  simp [get_vm_performance, hfind, netFields, herr]

/-- Witness for C5: reading pm.perfCounter raises, yet the call
returns ok with null network fields and the core fields computed. -/
theorem stats_network_null_on_metrics_failure_witness :
    get_vm_performance [⟨"stat-vm", 100, 512, some 1073741824⟩] "stat-vm"
        (Except.error "socket timeout") (Except.ok []) =
      Except.ok ⟨100, 512, round2 ((1073741824 : ℚ) / 2 ^ 30), none, none⟩ := by
  exact stats_network_null_on_metrics_failure _ _ ⟨"stat-vm", 100, 512, some 1073741824⟩
    "socket timeout" _ _ (by decide) rfl

/-- C9: the committed storage in GB reported by the stats query is
the raw committed byte count divided by 2^30 and rounded to two
decimal places, and at the byte count 11274289152 this value is 10.5
(= 21/2). -/
theorem stats_storage_rounding
    (vms : List VMperf) (name : String) (vm : VMperf)
    (countersRes : Except String (List PerfCounter))
    (queryRes : Except String (List EntityMetric))
    (hfind : vms.find? (fun v => v.vmName == name) = some vm) :
    (∃ s, get_vm_performance vms name countersRes queryRes = Except.ok s ∧
       s.storage_usage = round2 ((vm.storage.getD 0 : ℚ) / 2 ^ 30)) ∧
    round2 ((11274289152 : ℚ) / 2 ^ 30) = 21 / 2 := by
  refine ⟨⟨{ cpu_usage := vm.cpuUsage
             memory_usage := vm.memUsage
             storage_usage := round2 ((vm.storage.getD 0 : ℚ) / 2 ^ 30)
             network_transmit_KBps := (netFields countersRes queryRes).1
             network_receive_KBps := (netFields countersRes queryRes).2 },
           ?_, rfl⟩, round2_concrete⟩
  simp [get_vm_performance, hfind]

/-- Witness for C9 at the byte count named by the spec. -/
theorem stats_storage_rounding_witness :
    ∃ s, get_vm_performance [⟨"big-vm", 200, 1024, some 11274289152⟩] "big-vm"
        (Except.ok []) (Except.ok []) = Except.ok s ∧
      s.storage_usage = 21 / 2 := by
  obtain ⟨⟨s, hs, hval⟩, hc⟩ := stats_storage_rounding
    [⟨"big-vm", 200, 1024, some 11274289152⟩] "big-vm"
    ⟨"big-vm", 200, 1024, some 11274289152⟩ (Except.ok []) (Except.ok []) (by decide)
  exact ⟨s, hs, by rw [hval]; exact hc⟩

/-- C10: when the metrics block completes without raising but no
counter is named net.transmitted.average or net.received.average, or
the query result carries no matching series, both network fields are
0; the None value arises exactly when the block raises. -/
theorem stats_network_zero_without_counters
    (cs : List PerfCounter) (queryRes : Except String (List EntityMetric)) :
    (netCounterIds cs = [] → netFields (Except.ok cs) queryRes = (some 0, some 0)) ∧
    (∀ (k1 k2 : Nat) (em : EntityMetric) (rest : List EntityMetric),
      netCounterIds cs = [k1, k2] →
      queryRes = Except.ok (em :: rest) →
      (∀ s ∈ em.value, (s.counterId == k1) = false ∧ (s.counterId == k2) = false) →
      netFields (Except.ok cs) queryRes = (some 0, some 0)) ∧
    (∀ (cr : Except String (List PerfCounter)) (qr : Except String (List EntityMetric)),
      ((netFields cr qr).1 = none ∧ (netFields cr qr).2 = none) ↔
        ∃ e, metricsBlock cr qr = Except.error e) := by
  refine ⟨fun hids => ?_, fun k1 k2 em rest hids hq hnone => ?_, fun cr qr => ?_⟩
  · simp [netFields, metricsBlock, hids]
  · subst hq
    simp [netFields, metricsBlock, hids, seriesLoop_no_match k1 k2 em.value 0 0 hnone]
  · cases hmb : metricsBlock cr qr with
    | ok p =>
      rcases p with ⟨tx, rx⟩
      have hn : netFields cr qr = (some tx, some rx) := by simp [netFields, hmb]
      rw [hn]
      refine iff_of_false (fun hcon => by simp at hcon) (fun he => ?_)
      obtain ⟨e, he⟩ := he
      exact Except.noConfusion he
    | error e =>
      have hn : netFields cr qr = (none, none) := by simp [netFields, hmb]
      rw [hn]
      exact iff_of_true ⟨rfl, rfl⟩ ⟨e, rfl⟩

/-- Witness for C10: a counter list with no network counters gives
(0, 0); both network counters present but an unrelated series gives
(0, 0); a raising metrics read gives null fields. -/
theorem stats_network_zero_without_counters_witness :
    netFields (Except.ok [⟨"cpu", "usage", "average", 1⟩]) (Except.ok []) =
      (some 0, some 0) ∧
    netFields
        (Except.ok [⟨"net", "transmitted", "average", 10⟩,
                    ⟨"net", "received", "average", 11⟩])
        (Except.ok [⟨[⟨5, [3, 4]⟩]⟩]) = (some 0, some 0) ∧
    ((netFields (Except.error "boom") (Except.ok [])).1 = none ∧
     (netFields (Except.error "boom") (Except.ok [])).2 = none) := by
  refine ⟨(stats_network_zero_without_counters _ _).1 (by decide), ?_, ?_⟩
  · exact (stats_network_zero_without_counters _ _).2.1 10 11 ⟨[⟨5, [3, 4]⟩]⟩ []
      (by decide) rfl (by decide)
  · exact ((stats_network_zero_without_counters [] (Except.ok [])).2.2
      (Except.error "boom") (Except.ok [])).mpr ⟨"boom", rfl⟩

/-! ### Claim C6 -/

/-- C6: create_vm with a datastore name resolving to no datastore in
the datastore folder raises the not-found error before CreateVM_Task
is invoked (taskSubmitted = false, result independent of the task and
of the network argument); likewise for an unresolvable network
name. -/
theorem create_vm_unresolvable_no_task
    (ctx : CreateCtx) (name dsName netName : String)
    (task : RemoteTask) (fuel : Nat)
    (hds : ctx.dsChildren.find? (fun e => e.isDatastoreType && e.dsName == dsName) = none)
    (hnet : ctx.netChildren.find? (fun e => e.netName == netName) = none) :
    (∀ network, create_vm_res ctx name (some dsName) network task fuel =
       some ⟨Except.error ("Specified datastore " ++ dsName ++ " not found"), false⟩) ∧
    create_vm_res ctx name none (some netName) task fuel =
      some ⟨Except.error ("Specified network " ++ netName ++ " not found"), false⟩ := by
  constructor
  · intro network
    simp [create_vm_res, resolveDsOverride, hds]
  · simp [create_vm_res, resolveDsOverride, resolveNetOverride, hnet]

/-- Connection context for the C6 witness. -/
def ctxW : CreateCtx :=
  { defaultDatastore := ⟨true, "ds-main", 100⟩
    defaultNetwork := none
    dsChildren := [⟨true, "ds-main", 100⟩]
    netChildren := [⟨"VM Network"⟩] }

/-- Witness for C6 at concrete unresolvable names. -/
theorem create_vm_unresolvable_no_task_witness :
    create_vm_res ctxW "newvm" (some "missing-ds") none ⟨0, Terminal.success, ""⟩ 1 =
      some ⟨Except.error ("Specified datastore " ++ "missing-ds" ++ " not found"), false⟩ ∧
    create_vm_res ctxW "newvm" none (some "missing-net") ⟨0, Terminal.success, ""⟩ 1 =
      some ⟨Except.error ("Specified network " ++ "missing-net" ++ " not found"), false⟩ := by
  obtain ⟨h1, h2⟩ := create_vm_unresolvable_no_task ctxW "newvm" "missing-ds" "missing-net"
    ⟨0, Terminal.success, ""⟩ 1 (by decide) (by decide)
  exact ⟨h1 none, h2⟩

/-! ### Claim C7 -/

/-- C7: the claim states every traversal releases its container view
handle even when iterating the view raises.  find_vm_by_mac does
(its loop runs under try/finally), but list_vms and find_vm call
container.Destroy() only on the line after the loop, with no
try/finally: on a view whose name read raises, the Destroy flag is
false, i.e. the view handle leaks. -/
theorem view_destroy_on_failure :
    list_vms_view [⟨Except.error "vim.fault.ManagedObjectNotFound"⟩] =
      (Except.error "vim.fault.ManagedObjectNotFound", false) ∧
    find_vm_view "vm1" [⟨Except.error "vim.fault.ManagedObjectNotFound"⟩] =
      (Except.error "vim.fault.ManagedObjectNotFound", false) ∧
    find_vm_by_mac_view [Except.error "vim.fault.ManagedObjectNotFound"] =
      (Except.error "vim.fault.ManagedObjectNotFound", true) :=
  ⟨rfl, rfl, rfl⟩

/-! ### Claim C8 -/

/-- The default datacenter choice picks the first vim.Datacenter of
the root folder listing. -/
theorem resolve_datacenter_default_first (pre suf : List RootChild) (dn : String)
    (h : ∀ c ∈ pre, c = RootChild.other) :
    resolve_datacenter (pre ++ RootChild.dc dn :: suf) none = Except.ok dn := by
  induction pre with
  | nil => simp [resolve_datacenter, List.findSome?_cons]
  | cons c cs ih =>
    have hc := h c (List.mem_cons_self c cs)
    subst hc
    have ih' := ih (fun x hx => h x (List.mem_cons_of_mem _ hx))
    simpa [resolve_datacenter, List.findSome?_cons] using ih'

/-- The default compute-resource choice picks the first
ComputeResource of the host folder listing. -/
theorem resolve_compute_default_first (pre suf : List HostEntity) (ce : HostEntity)
    (hpre : ∀ e ∈ pre, e.isCompute = false) (hce : ce.isCompute = true) :
    resolve_compute (pre ++ ce :: suf) none = Except.ok ce := by
  induction pre with
  | nil => simp [resolve_compute, List.find?_cons, hce]
  | cons e es ih =>
    have he := hpre e (List.mem_cons_self e es)
    have ih' := ih (fun x hx => hpre x (List.mem_cons_of_mem _ hx))
    simpa [resolve_compute, List.find?_cons, he] using ih'

/-- pyMaxBy returns its starting candidate or a list element. -/
theorem pyMaxBy_mem (key : DsEntity → Int) :
    ∀ (l : List DsEntity) (b : DsEntity), pyMaxBy key b l = b ∨ pyMaxBy key b l ∈ l := by
  intro l
  induction l with
  | nil => intro b; left; rfl
  | cons x xs ih =>
    intro b
    rw [pyMaxBy]
    by_cases hkb : key b < key x
    · rw [if_pos hkb]
      rcases ih x with h | h
      · right
        rw [h]
        exact List.mem_cons_self x xs
      · right
        exact List.mem_cons_of_mem x h
    · rw [if_neg hkb]
      rcases ih b with h | h
      · left
        exact h
      · right
        exact List.mem_cons_of_mem x h

/-- pyMaxBy dominates its starting candidate and every list
element. -/
theorem pyMaxBy_ge (key : DsEntity → Int) :
    ∀ (l : List DsEntity) (b : DsEntity),
      key b ≤ key (pyMaxBy key b l) ∧ ∀ x ∈ l, key x ≤ key (pyMaxBy key b l) := by
  intro l
  induction l with
  | nil =>
    intro b
    refine ⟨le_refl _, ?_⟩
    intro x hx
    cases hx
  | cons y ys ih =>
    intro b
    rw [pyMaxBy]
    by_cases hkb : key b < key y
    · rw [if_pos hkb]
      obtain ⟨h1, h2⟩ := ih y
      refine ⟨le_of_lt (lt_of_lt_of_le hkb h1), ?_⟩
      intro x hx
      rcases List.mem_cons.mp hx with rfl | hx
      · exact h1
      · exact h2 x hx
    · rw [if_neg hkb]
      obtain ⟨h1, h2⟩ := ih b
      refine ⟨h1, ?_⟩
      intro x hx
      rcases List.mem_cons.mp hx with rfl | hx
      · exact le_trans (not_lt.mp hkb) h1
      · exact h2 x hx

/-- C8 counterexample: the claim states the network name defaults to
"first found"; the code sets network_obj to None when no network name
is configured, even when the network folder has an entry.  The
spec-modelled first-found rule would return that entry. -/
theorem network_default_counterexample :
    resolve_network [⟨"VM Network"⟩] none = Except.ok none ∧
    resolve_network_specFirstFound [⟨"VM Network"⟩] =
      Except.ok (some ⟨"VM Network"⟩) ∧
    ((none : Option NetEntity) = some ⟨"VM Network"⟩) = False := by
  refine ⟨rfl, rfl, eq_false ?_⟩
  intro hcon
  exact Option.noConfusion hcon

/-- C8 (amended): the datacenter and cluster default to the first
object of the required type in their listings, the datastore defaults
to the datastore with the highest free space (first among ties), and
the network defaults to no network at all (None), not to "first
found". -/
theorem connect_defaults_amended
    (rootPre rootSuf : List RootChild) (dn : String)
    (hostPre hostSuf : List HostEntity) (ce : HostEntity)
    (dss : List DsEntity) (nets : List NetEntity)
    (hroot : ∀ c ∈ rootPre, c = RootChild.other)
    (hhost : ∀ e ∈ hostPre, e.isCompute = false)
    (hce : ce.isCompute = true) :
    resolve_datacenter (rootPre ++ RootChild.dc dn :: rootSuf) none = Except.ok dn ∧
    resolve_compute (hostPre ++ ce :: hostSuf) none = Except.ok ce ∧
    (∀ d, resolve_datastore dss none = Except.ok d →
      (d ∈ dss ∧ d.isDatastoreType = true) ∧
      ∀ x ∈ dss, x.isDatastoreType = true → x.freeSpace ≤ d.freeSpace) ∧
    resolve_network nets none = Except.ok none := by
  refine ⟨resolve_datacenter_default_first _ _ _ hroot,
          resolve_compute_default_first _ _ _ hhost hce, ?_, rfl⟩
  intro d hd
  simp only [resolve_datastore] at hd
  cases hfil : dss.filter (fun e => e.isDatastoreType) with
  | nil =>
    rw [hfil] at hd
    exact Except.noConfusion hd
  | cons d0 ds0 =>
    rw [hfil] at hd
    have hdd : pyMaxBy (fun e => e.freeSpace) d0 ds0 = d := by
      injection hd
    have hmem : d ∈ (d0 :: ds0) := by
      rcases pyMaxBy_mem (fun e => e.freeSpace) ds0 d0 with h | h
      · rw [← hdd, h]
        exact List.mem_cons_self d0 ds0
      · rw [← hdd]
        exact List.mem_cons_of_mem d0 h
    rw [← hfil] at hmem
    have hmemf := List.mem_filter.mp hmem
    refine ⟨⟨hmemf.1, hmemf.2⟩, ?_⟩
    intro x hx hxty
    have hxf : x ∈ dss.filter (fun e => e.isDatastoreType) :=
      List.mem_filter.mpr ⟨hx, hxty⟩
    rw [hfil] at hxf
    rcases List.mem_cons.mp hxf with rfl | hxs
    · rw [← hdd]
      exact (pyMaxBy_ge (fun e => e.freeSpace) ds0 x).1
    · rw [← hdd]
      exact (pyMaxBy_ge (fun e => e.freeSpace) ds0 d0).2 x hxs

/-- Datastore folder listing for the C8 witness: one non-datastore
entry with huge free space (ignored) and two datastores. -/
def dssW : List DsEntity := [⟨true, "ds1", 50⟩, ⟨false, "vmfolder", 999⟩, ⟨true, "ds2", 100⟩]

/-- Witness for C8 (amended) at concrete listings. -/
theorem connect_defaults_amended_witness :
    resolve_datacenter [RootChild.other, RootChild.dc "DC1"] none = Except.ok "DC1" ∧
    resolve_compute [⟨false, false, "folder1"⟩, ⟨true, true, "Cluster1"⟩] none =
      Except.ok ⟨true, true, "Cluster1"⟩ ∧
    ((⟨true, "ds2", 100⟩ : DsEntity) ∈ dssW ∧
      (⟨true, "ds2", 100⟩ : DsEntity).isDatastoreType = true) ∧
    (∀ x ∈ dssW, x.isDatastoreType = true → x.freeSpace ≤ 100) ∧
    resolve_network [⟨"VM Network"⟩] none = Except.ok none := by
  obtain ⟨h1, h2, h3, h4⟩ := connect_defaults_amended
    [RootChild.other] [] "DC1" [⟨false, false, "folder1"⟩] [] ⟨true, true, "Cluster1"⟩
    dssW [⟨"VM Network"⟩] (by decide) (by decide) rfl
  have h3' := h3 ⟨true, "ds2", 100⟩ rfl
  exact ⟨h1, h2, h3'.1, fun x hx hty => h3'.2 x hx hty, h4⟩

end VMwareSpec
